import Mathlib

/-!
Verification of the BloonGuessr game-logic core (balloon feed extraction,
secure shuffle, photo cache, round assembly, and scoring geometry) against
its natural-language specification.  The TypeScript source is shallowly
embedded: JSON payload values become the inductive `JsVal` (with JavaScript
truthiness for the `||` chains), machine numbers become `ℚ` where the code
only copies and compares them, and the transcendental distance/score math
is embedded over `ℝ`.  External HTTP services (reverse geocoding, image
search) and the random byte source are passed in as explicit oracles.
-/

/-- A JSON-ish runtime value, as handled by the untyped extraction code.
`Option JsVal` stands for a possibly-`undefined` value (JavaScript property
access on a missing key yields `undefined`, modelled as `none`). -/

inductive JsVal : Type where
  | null_ : JsVal
  | bool : Bool → JsVal
  | num : ℚ → JsVal
  | str : String → JsVal
  | arr : List JsVal → JsVal
  | obj : List (String × JsVal) → JsVal

/-- JavaScript truthiness of a possibly-undefined value: `undefined`, `null`,
`false`, `0` and the empty string are falsy; arrays and objects are truthy. -/

def truthy : Option JsVal → Bool
  | none => false
  | some JsVal.null_ => false
  | some (JsVal.bool b) => b
  | some (JsVal.num q) => q != 0
  | some (JsVal.str s) => s != ""
  | some (JsVal.arr _) => true
  | some (JsVal.obj _) => true

/-- The JavaScript `||` operator on possibly-undefined values: the left
operand if truthy, otherwise the right operand (whatever it is). -/

def jsOr (a b : Option JsVal) : Option JsVal :=
  if truthy a then a else b

/-- First binding of a key in an object field list (object keys are unique). -/

def lookupField : List (String × JsVal) → String → Option JsVal
  | [], _ => none
  | (k, v) :: rest, name => if k = name then some v else lookupField rest name

/-- JavaScript property access `item.name`: a field of an object, and
`undefined` on every other value (including arrays, which carry no named
coordinate fields). -/

def getField : JsVal → String → Option JsVal
  | JsVal.obj fields, name => lookupField fields name
  | _, _ => none

/-- Test `typeof item` = object for a non-`undefined` value: true for objects,
arrays and `null`. -/

def typeofObject : JsVal → Bool
  | JsVal.obj _ => true
  | JsVal.arr _ => true
  | JsVal.null_ => true
  | _ => false

/-- Record for `interface BalloonData` from the source.  The TS interface declares
`id: string` and `alt?: number`; the runtime `||` fallbacks of the object
branch are modelled at those declared types (a non-string `id` field or
non-numeric altitude field, which the interface forbids, falls back to the
positional id resp. to no altitude). -/

structure BalloonData : Type where
  id : String
  lat : ℚ
  lon : ℚ
  alt : Option ℚ
deriving DecidableEq, Repr

/-- Embedding of `extractCoordinates(item, id)` from the source: first the array branch
`[lat, lon, alt]` with `typeof` checks and range checks; on fall-through, the
object branch resolves each coordinate through the JavaScript `||` chain of
recognized spellings and applies the same checks. -/

def extractCoordinates (item : JsVal) (id : String) : Option BalloonData :=
  if truthy (some item) = false then none
  else
    let arrRes : Option BalloonData :=
      match item with
      | JsVal.arr l =>
        match l[0]?, l[1]? with
        | some (JsVal.num lat), some (JsVal.num lon) =>
          if -90 ≤ lat ∧ lat ≤ 90 ∧ -180 ≤ lon ∧ lon ≤ 180 then
            some { id := id, lat := lat, lon := lon,
                   alt := match l[2]? with
                          | some (JsVal.num a) => some a
                          | _ => none }
          else none
        | _, _ => none
      | _ => none
    match arrRes with
    | some b => some b
    | none =>
      if typeofObject item then
        let latv := jsOr (getField item "lat") (jsOr (getField item "latitude")
          (jsOr (getField item "Lat") (getField item "Latitude")))
        let lonv := jsOr (getField item "lon") (jsOr (getField item "lng")
          (jsOr (getField item "longitude") (jsOr (getField item "Lon")
            (getField item "Longitude"))))
        match latv, lonv with
        | some (JsVal.num lat), some (JsVal.num lon) =>
          if -90 ≤ lat ∧ lat ≤ 90 ∧ -180 ≤ lon ∧ lon ≤ 180 then
            some { id := (match jsOr (getField item "id") (jsOr (getField item "ID")
                            (getField item "balloon_id")) with
                          | some (JsVal.str s) => s
                          | _ => id),
                   lat := lat, lon := lon,
                   alt := match jsOr (getField item "alt") (jsOr (getField item "altitude")
                            (jsOr (getField item "Alt") (getField item "Altitude"))) with
                          | some (JsVal.num a) => some a
                          | _ => none }
          else none
        | _, _ => none
      else none

/-- The latitude field spellings recognized by the object branch, in the
order the `||` chain consults them. -/

def latSpellings : List String := ["lat", "latitude", "Lat", "Latitude"]

/-- The longitude field spellings recognized by the object branch, in the
order the `||` chain consults them. -/

def lonSpellings : List String := ["lon", "lng", "longitude", "Lon", "Longitude"]

/-- Embedding of `Math.atan2(y, x)`: the angle of the point `(x, y)`, by the JavaScript
case analysis (principal value of `arctan (y/x)` adjusted by quadrant). -/

noncomputable def atan2 (y x : ℝ) : ℝ :=
  if 0 < x then Real.arctan (y / x)
  else if x < 0 then
    (if 0 ≤ y then Real.arctan (y / x) + Real.pi else Real.arctan (y / x) - Real.pi)
  else
    (if 0 < y then Real.pi / 2 else if y < 0 then -(Real.pi / 2) else 0)

/-- Embedding of `toRad(degrees)` from the source: degrees to radians. -/

noncomputable def toRad (degrees : ℝ) : ℝ :=
  degrees * (Real.pi / 180)

/-- Embedding of `calculateDistance(lat1, lon1, lat2, lon2)` from the source: haversine
great-circle distance in kilometers with Earth radius `R = 6371`. -/

noncomputable def calculateDistance (lat1 lon1 lat2 lon2 : ℝ) : ℝ :=
  let R : ℝ := 6371
  let dLat := toRad (lat2 - lat1)
  let dLon := toRad (lon2 - lon1)
  let a := Real.sin (dLat / 2) * Real.sin (dLat / 2) +
    Real.cos (toRad lat1) * Real.cos (toRad lat2) *
    (Real.sin (dLon / 2) * Real.sin (dLon / 2))
  let c := 2 * atan2 (Real.sqrt a) (Real.sqrt (1 - a))
  R * c

/-- Embedding of `calculateScore(actualLat, actualLon, guessLat, guessLon)` from the
source: 5000 points within the 500 km perfect radius, then
`Math.round(5000 * exp(-(distance - 500) / 2500))` clamped below by 0. -/

noncomputable def calculateScore (actualLat actualLon guessLat guessLon : ℝ) : ℤ :=
  let distance := calculateDistance actualLat actualLon guessLat guessLon
  if distance ≤ 500 then 5000
  else max 0 (round ((5000 : ℝ) * Real.exp (-(distance - 500) / 2500)))

/-- Embedding of `Math.ceil(Math.log2(range) / 8)`: the number of random bytes covering
`range` values, i.e. for `range ≥ 2` the least `b` with `range ≤ 256 ^ b`
(0 for `range ≤ 1`; the shuffle only ever passes ranges ≥ 2). -/

def bytesNeeded (range : ℕ) : ℕ :=
  if range ≤ 1 then 0 else Nat.log 256 (range - 1) + 1

/-- Embedding of `secureRandomInt(max)` from the source, with the fresh `randomBytes`
draw for this call passed as the stream `bytes`: big-endian accumulation of
`bytesNeeded` bytes and biased scaling
`Math.floor((randomValue / maxValue) * range)` (exact rational arithmetic,
written as natural division). -/

def secureRandomInt (max : ℕ) (bytes : ℕ → ℕ) : ℕ :=
  let b := bytesNeeded max
  let maxValue := 256 ^ b
  let randomValue := (List.range b).foldl (fun acc i => acc * 256 + bytes i) 0
  randomValue * max / maxValue

/-- The destructuring swap `[a[i], a[j]] = [a[j], a[i]]` on a list, identity
when an index is out of bounds (the shuffle only performs in-bounds swaps,
see `secureRandomInt_lt`). -/

def swapL {α : Type*} (l : List α) (i j : ℕ) : List α :=
  match l[i]?, l[j]? with
  | some a, some b => (l.set i b).set j a
  | _, _ => l

/-- The descending Fisher–Yates loop of `shuffleArray`: performs the swaps
for indices `i, i-1, …, 1`, drawing the swap index for step `i` from the
byte stream `rnd i`. -/

def shuffleLoop {α : Type*} (rnd : ℕ → ℕ → ℕ) : ℕ → List α → List α
  | 0, l => l
  | Nat.succ k, l =>
    shuffleLoop rnd k (swapL l (k + 1) (secureRandomInt (k + 2) (rnd (k + 1))))

/-- Embedding of `shuffleArray(array)` from the source: copy, then Fisher–Yates from
`length - 1` down to 1. -/

def shuffleArray {α : Type*} (rnd : ℕ → ℕ → ℕ) (array : List α) : List α :=
  shuffleLoop rnd (array.length - 1) array

/-- Record for `interface CachedPhoto` from the source; `timestamp` is the write time
in epoch milliseconds. -/

structure CachedPhoto : Type where
  balloonId : String
  photoUrl : String
  photoAttribution : String
  locationName : String
  timestamp : ℤ
deriving DecidableEq, Repr

/-- Embedding of `interface PhotoCache`: the balloonId-keyed JSON cache document,
modelled as an association list with unique keys. -/

abbrev PhotoCache : Type := List (String × CachedPhoto)

/-- Constant `CACHE_DURATION`: 24 hours in milliseconds. -/

def CACHE_DURATION : ℤ := 24 * 60 * 60 * 1000

/-- Embedding of `loadCache()` from the source: the parsed file contents, or the empty
mapping when the cache file is absent (the file state is passed explicitly
as `storage`). -/

def loadCache (storage : Option PhotoCache) : PhotoCache :=
  storage.getD []

/-- Embedding of `saveCache(cache)` from the source: overwrite the cache file with the
whole mapping, yielding the new file state. -/

def saveCache (cache : PhotoCache) : Option PhotoCache :=
  some cache

/-- Embedding of `isCacheValid(cached)` from the source, with `Date.now()` passed
explicitly: strictly less than 24 hours old. -/

def isCacheValid (now : ℤ) (cached : CachedPhoto) : Bool :=
  now - cached.timestamp < CACHE_DURATION

/-- Assignment `cache[balloonId] = entry`: overwrite any prior entry for that id. -/

def cacheSet (cache : PhotoCache) (id : String) (v : CachedPhoto) : PhotoCache :=
  cache.filter (fun p => !(p.1 == id)) ++ [(id, v)]

deriving instance DecidableEq for Except

/-- The anonymous result record of `getPhotoForLocation`. -/

structure PhotoResult : Type where
  url : String
  attribution : String
  locationName : String
  lat : ℚ
  lon : ℚ
  distance : ℚ
deriving DecidableEq, Repr

/-- Embedding of `getPhotoForLocation(balloonId, lat, lon)` from the source.  The
external reverse-geocoding and image-search services are the oracles
`geocode` and `unsplash` (the latter already folding in the random pick
from the result page), `now` is `Date.now()`, and `storage` is the cache
file state, threaded through and updated by `saveCache` on a fresh fetch. -/

def getPhotoForLocation (now : ℤ) (geocode : ℚ → ℚ → Option String)
    (unsplash : String → Option (String × String)) (storage : Option PhotoCache)
    (balloonId : String) (lat lon : ℚ) : Option PhotoResult × Option PhotoCache :=
  let cache := loadCache storage
  let validHit : Option CachedPhoto :=
    match List.lookup balloonId cache with
    | some cached => if isCacheValid now cached then some cached else none
    | none => none
  match validHit with
  | some cached =>
    (some { url := cached.photoUrl, attribution := cached.photoAttribution,
            locationName := cached.locationName, lat := lat, lon := lon, distance := 0 },
     storage)
  | none =>
    match geocode lat lon with
    | none => (none, storage)
    | some locationName =>
      match unsplash locationName with
      | none => (none, storage)
      | some (url, attribution) =>
        let cachedPhoto : CachedPhoto :=
          { balloonId := balloonId, photoUrl := url, photoAttribution := attribution,
            locationName := locationName, timestamp := now }
        (some { url := url, attribution := attribution, locationName := locationName,
                lat := lat, lon := lon, distance := 0 },
         saveCache (cacheSet cache balloonId cachedPhoto))

/-- Record for `interface GameRound` from the source. -/

structure GameRound : Type where
  balloonLat : ℚ
  balloonLon : ℚ
  balloonId : String
  photoUrl : String
  photoAttribution : String
  locationName : String
  photoLat : ℚ
  photoLon : ℚ
  distanceKm : ℤ
deriving DecidableEq, Repr

/-- The two fatal errors thrown by `createGameRound`. -/

inductive GameError : Type where
  | noData : GameError
  | noViableRounds : GameError
deriving DecidableEq, Repr

/-- The message of each thrown `Error`, verbatim from the source. -/

def GameError.message : GameError → String
  | GameError.noData => "No balloon data available. The WindBorne API might be down."
  | GameError.noViableRounds => "Could not find any photos for the selected balloons. Please try again!"

/-- The round constructed from a balloon and a resolved photo, with
`distanceKm = Math.round(photo.distance)`. -/

def mkRound (balloon : BalloonData) (photo : PhotoResult) : GameRound :=
  { balloonId := balloon.id, balloonLat := balloon.lat, balloonLon := balloon.lon,
    photoUrl := photo.url, photoAttribution := photo.attribution,
    locationName := photo.locationName, photoLat := photo.lat, photoLon := photo.lon,
    distanceKm := round photo.distance }

/-- The round-collection loop of `createGameRound`: walk the selected
balloons in order while fewer than `numRounds` rounds are collected,
appending a round per resolved photo and threading the cache file state. -/

def collectRounds (now : ℤ) (geocode : ℚ → ℚ → Option String)
    (unsplash : String → Option (String × String)) (numRounds : ℕ) :
    List BalloonData → List GameRound × Option PhotoCache →
    List GameRound × Option PhotoCache
  | [], acc => acc
  | balloon :: rest, (rounds, storage) =>
    if rounds.length < numRounds then
      match getPhotoForLocation now geocode unsplash storage balloon.id balloon.lat balloon.lon with
      | (some photo, storage2) =>
        collectRounds now geocode unsplash numRounds rest
          (rounds ++ [mkRound balloon photo], storage2)
      | (none, storage2) =>
        collectRounds now geocode unsplash numRounds rest (rounds, storage2)
    else (rounds, storage)

/-- Embedding of `createGameRound(numRounds)` from the source, with the already-fetched
feed result passed as `balloons`: fail on an empty feed, shuffle, over-sample
`numRounds * 3`, collect rounds, and fail if none were collected. -/

def createGameRound (numRounds : ℕ) (rnd : ℕ → ℕ → ℕ) (now : ℤ)
    (geocode : ℚ → ℚ → Option String) (unsplash : String → Option (String × String))
    (balloons : List BalloonData) (storage : Option PhotoCache) :
    Except GameError (List GameRound) :=
  if balloons.length = 0 then Except.error GameError.noData
  else
    let shuffledBalloons := shuffleArray rnd balloons
    let selectedBalloons := shuffledBalloons.take (min (numRounds * 3) shuffledBalloons.length)
    let result := collectRounds now geocode unsplash numRounds selectedBalloons ([], storage)
    if result.1.length = 0 then Except.error GameError.noViableRounds
    else Except.ok result.1

/-- The response of the `POST /api/game/guess` handler, reduced to its two
core outcomes: the 400 "Missing required coordinates" rejection, or the
score with the echoed actual location.  The ancillary weather lookup of the
success response is external and out of core scope per the spec, and is
omitted here. -/

inductive GuessResponse : Type where
  | badRequest : String → GuessResponse
  | ok : ℤ → ℚ → ℚ → GuessResponse

/-- The guess-submission handler from `balloon.ts`, over numeric-or-absent
body fields: `!actualLat || !actualLon || !guessLat || !guessLon` rejects
with HTTP 400, using JavaScript truthiness on each coordinate (absent or 0
is falsy); otherwise the guess is scored with `calculateScore`. -/

noncomputable def guessHandler (actualLat actualLon guessLat guessLon : Option ℚ) :
    GuessResponse :=
  if truthy (actualLat.map JsVal.num) = false ∨ truthy (actualLon.map JsVal.num) = false ∨
     truthy (guessLat.map JsVal.num) = false ∨ truthy (guessLon.map JsVal.num) = false then
    GuessResponse.badRequest "Missing required coordinates"
  else
    GuessResponse.ok
      (calculateScore ((actualLat.getD 0 : ℚ) : ℝ) ((actualLon.getD 0 : ℚ) : ℝ)
        ((guessLat.getD 0 : ℚ) : ℝ) ((guessLon.getD 0 : ℚ) : ℝ))
      (actualLat.getD 0) (actualLon.getD 0)

/-- A concrete cache entry written at epoch 0, used as a witness input. -/

def sampleEntry : CachedPhoto :=
  { balloonId := "b", photoUrl := "u", photoAttribution := "a",
    locationName := "loc", timestamp := 0 }

/-- C1 (counterexample): the object entry `{"lat": 0, "lon": 20}` has numeric
latitude 0 ∈ [-90, 90] and longitude 20 ∈ [-180, 180] under recognized
spellings, yet extraction yields no observation, because the JavaScript `||`
chain treats the falsy value 0 as absent.  This refutes the claim that every
object-shaped entry with in-range numeric coordinates yields an observation. -/

theorem C1_counterexample :
    extractCoordinates (JsVal.obj [("lat", JsVal.num 0), ("lon", JsVal.num 20)]) "0" = none
    ∧ ((-90 : ℚ) ≤ 0 ∧ (0 : ℚ) ≤ 90 ∧ (-180 : ℚ) ≤ 20 ∧ (20 : ℚ) ≤ 180) := by
  decide

/-- C1 (amended): array-shaped entries yield an observation with exactly the
entry coordinates iff both coordinates are numbers in range, with the altitude
kept only when numeric; scalar entries yield nothing; object-shaped entries
under any recognized spelling pair yield exactly the entry coordinates iff
both are in range, provided both coordinate values are nonzero (a zero
coordinate is falsy in the `||` chain and the entry is dropped); and the three
spec examples hold. -/

theorem extractCoordinates_amended :
    (∀ (id : String) (l : List JsVal),
       extractCoordinates (JsVal.arr l) id =
         match l[0]?, l[1]? with
         | some (JsVal.num lat), some (JsVal.num lon) =>
           if -90 ≤ lat ∧ lat ≤ 90 ∧ -180 ≤ lon ∧ lon ≤ 180 then
             some { id := id, lat := lat, lon := lon,
                    alt := match l[2]? with
                           | some (JsVal.num a) => some a
                           | _ => none }
           else none
         | _, _ => none) ∧
    (∀ (id : String) (q : ℚ) (s : String) (b : Bool),
       extractCoordinates (JsVal.num q) id = none ∧
       extractCoordinates (JsVal.str s) id = none ∧
       extractCoordinates (JsVal.bool b) id = none ∧
       extractCoordinates JsVal.null_ id = none) ∧
    (∀ sLat, sLat ∈ latSpellings → ∀ sLon, sLon ∈ lonSpellings →
       ∀ (id : String) (lat lon : ℚ), lat ≠ 0 → lon ≠ 0 →
       extractCoordinates (JsVal.obj [(sLat, JsVal.num lat), (sLon, JsVal.num lon)]) id =
         if -90 ≤ lat ∧ lat ≤ 90 ∧ -180 ≤ lon ∧ lon ≤ 180 then
           some { id := id, lat := lat, lon := lon, alt := none }
         else none) ∧
    extractCoordinates (JsVal.arr [JsVal.num 45, JsVal.num (-122), JsVal.num 1000]) "7" =
      some { id := "7", lat := 45, lon := -122, alt := some 1000 } ∧
    extractCoordinates (JsVal.arr [JsVal.num 91, JsVal.num 0]) "7" = none ∧
    extractCoordinates (JsVal.obj [("latitude", JsVal.num 10), ("longitude", JsVal.num 20)]) "7" =
      some { id := "7", lat := 10, lon := 20, alt := none } := by
  refine ⟨?_, ?_, ?_, by decide, by decide, by decide⟩
  · intro id l
    unfold extractCoordinates
    rcases h0 : l[0]? with _ | v0 <;> rcases h1 : l[1]? with _ | v1 <;>
      simp only [h0, h1, truthy] <;> try rfl
    cases v0 <;> cases v1 <;> try rfl
    rename_i la lo
    by_cases hP : -90 ≤ la ∧ la ≤ 90 ∧ -180 ≤ lo ∧ lo ≤ 180
    · simp only [if_pos hP]
      rfl
    · simp only [if_neg hP]
      rfl
  · intro id q s b
    refine ⟨?_, ?_, ?_, rfl⟩
    · unfold extractCoordinates
      by_cases h : q = 0 <;> simp [truthy, typeofObject, h]
    · unfold extractCoordinates
      by_cases h : s = "" <;> simp [truthy, typeofObject, h]
    · unfold extractCoordinates
      cases b <;> rfl
  · intro sLat hs1 sLon hs2 id lat lon hlat hlon
    fin_cases hs1 <;> fin_cases hs2 <;>
      simp [extractCoordinates, truthy, jsOr, getField, lookupField, typeofObject,
        bne_iff_ne, hlat, hlon]

/-- C1 witness: an object entry with nonzero in-range coordinates under the
mixed spellings Lat/lng yields exactly those coordinates. -/

theorem extractCoordinates_amended_witness :
    extractCoordinates (JsVal.obj [("Lat", JsVal.num 10), ("lng", JsVal.num 20)]) "3" =
      some { id := "3", lat := 10, lon := 20, alt := none } := by
  have h := extractCoordinates_amended.2.2.1 "Lat" (by decide) "lng" (by decide) "3" 10 20
    (by norm_num) (by norm_num)
  rw [h]
  norm_num

/-- The haversine distance is invariant under a full 360° shift of one
longitude, because `sin ((x + π))² = sin x²`; hence guesses across the
antimeridian are scored on the shortest wraparound path even though the code
never clamps the longitude difference. -/

theorem calculateDistance_lon_shift (lat1 lon1 lat2 lon2 : ℝ) :
    calculateDistance lat1 lon1 lat2 (lon2 + 360) = calculateDistance lat1 lon1 lat2 lon2 := by
  have key : toRad (lon2 + 360 - lon1) / 2 = toRad (lon2 - lon1) / 2 + Real.pi := by
    unfold toRad; ring
  simp only [calculateDistance, key, Real.sin_add_pi, neg_mul_neg]

/-- The antimeridian distance evaluates in closed form to `6371 · 2 · π/180`. -/

theorem calculateDistance_antimeridian_eq :
    calculateDistance 0 179 0 (-179) = 6371 * (2 * (Real.pi / 180)) := by
  have hpi := Real.pi_pos
  have ht0 : -(Real.pi / 2) < Real.pi / 180 := by linarith
  have ht1 : Real.pi / 180 < Real.pi / 2 := by linarith
  have hsin_nonneg : 0 ≤ Real.sin (Real.pi / 180) :=
    Real.sin_nonneg_of_nonneg_of_le_pi (by positivity) (by linarith)
  have hcos_pos : 0 < Real.cos (Real.pi / 180) := Real.cos_pos_of_mem_Ioo ⟨ht0, ht1⟩
  have harg : toRad (-179 - 179) / 2 = Real.pi / 180 - Real.pi := by unfold toRad; ring
  have hzero : toRad ((0 : ℝ) - 0) = 0 := by unfold toRad; ring
  have hlat : toRad (0 : ℝ) = 0 := by unfold toRad; ring
  simp only [calculateDistance, harg, hzero, hlat, Real.sin_sub_pi, neg_mul_neg]
  norm_num [Real.sin_zero, Real.cos_zero]
  rw [Real.sqrt_mul_self hsin_nonneg]
  have h2 : 1 - Real.sin (Real.pi / 180) * Real.sin (Real.pi / 180) =
      Real.cos (Real.pi / 180) * Real.cos (Real.pi / 180) := by
    nlinarith [Real.sin_sq_add_cos_sq (Real.pi / 180)]
  rw [h2, Real.sqrt_mul_self hcos_pos.le]
  unfold atan2
  rw [if_pos hcos_pos, ← Real.tan_eq_sin_div_cos, Real.arctan_tan ht0 ht1]

/-- C2: the distance used by the score is the haversine great-circle
distance with Earth radius 6371 km, and it scores across the antimeridian on
the shortest wraparound path: shifting a longitude by a full turn leaves the
distance unchanged, and for actual = (0, 179), guess = (0, −179) the distance
is ≈ 222 km (strictly between 222 and 223), not ≈ 39,800 km. -/

theorem calculateDistance_wraparound :
    (∀ lat1 lon1 lat2 lon2 : ℝ,
      calculateDistance lat1 lon1 lat2 (lon2 + 360) = calculateDistance lat1 lon1 lat2 lon2) ∧
    222 < calculateDistance 0 179 0 (-179) ∧ calculateDistance 0 179 0 (-179) < 223 := by
  refine ⟨calculateDistance_lon_shift, ?_, ?_⟩ <;> rw [calculateDistance_antimeridian_eq]
  · nlinarith [Real.pi_gt_d2]
  · nlinarith [Real.pi_lt_d2]

/-- Rounding as `Math.round` does is monotone (it is `⌊x + 1/2⌋`). -/

theorem round_mono_real {x y : ℝ} (h : x ≤ y) : round x ≤ round y := by
  rw [round_eq, round_eq]
  exact Int.floor_mono (by linarith)

/-- A real at most 5000 rounds to at most 5000. -/

theorem round_le_5000 {x : ℝ} (hx : x ≤ 5000) : round x ≤ 5000 := by
  have h1 : round x ≤ round (5000 : ℝ) := round_mono_real hx
  have h2 : round (5000 : ℝ) = (5000 : ℤ) := by
    rw [show (5000 : ℝ) = ((5000 : ℤ) : ℝ) by norm_num, round_intCast]
  omega

/-- The distance from a point to itself is 0. -/

theorem calculateDistance_self (lat lon : ℝ) : calculateDistance lat lon lat lon = 0 := by
  have hzero : toRad (lat - lat) = 0 := by unfold toRad; ring
  have hzero2 : toRad (lon - lon) = 0 := by unfold toRad; ring
  simp only [calculateDistance, hzero, hzero2]
  norm_num [Real.sin_zero, atan2, Real.sqrt_zero, Real.sqrt_one, Real.arctan_zero]

/-- The antipodal-equator distance evaluates to `6371 π`. -/

theorem calculateDistance_antipodal :
    calculateDistance 0 0 0 180 = 6371 * Real.pi := by
  have harg : toRad ((180 : ℝ) - 0) / 2 = Real.pi / 2 := by unfold toRad; ring
  have hzero : toRad ((0 : ℝ) - 0) = 0 := by unfold toRad; ring
  have hlat : toRad (0 : ℝ) = 0 := by unfold toRad; ring
  simp only [calculateDistance, harg, hzero, hlat]
  norm_num [Real.sin_zero, Real.cos_zero, Real.sin_pi_div_two, Real.sqrt_zero, Real.sqrt_one]
  unfold atan2
  norm_num
  ring

/-- C5: within 500 km the score is exactly 5000; beyond 500 km it is
`round(5000 · exp(−(d − 500)/2500))` clamped below by 0; and the result is
always an integer in [0, 5000]. -/

theorem calculateScore_curve (aLat aLon gLat gLon : ℝ) :
    (calculateDistance aLat aLon gLat gLon ≤ 500 → calculateScore aLat aLon gLat gLon = 5000) ∧
    (500 < calculateDistance aLat aLon gLat gLon →
      calculateScore aLat aLon gLat gLon =
        max 0 (round ((5000 : ℝ) *
          Real.exp (-(calculateDistance aLat aLon gLat gLon - 500) / 2500)))) ∧
    0 ≤ calculateScore aLat aLon gLat gLon ∧ calculateScore aLat aLon gLat gLon ≤ 5000 := by
  unfold calculateScore
  by_cases hd : calculateDistance aLat aLon gLat gLon ≤ 500
  · rw [if_pos hd]
    exact ⟨fun _ => rfl, fun h => absurd hd (not_le.mpr h), by norm_num, by norm_num⟩
  · rw [if_neg hd]
    push_neg at hd
    have hexp : Real.exp (-(calculateDistance aLat aLon gLat gLon - 500) / 2500) ≤ 1 :=
      Real.exp_le_one_iff.mpr (by nlinarith)
    have hle : (5000 : ℝ) * Real.exp (-(calculateDistance aLat aLon gLat gLon - 500) / 2500) ≤ 5000 := by
      nlinarith
    exact ⟨fun h => absurd h (not_le.mpr hd), fun _ => rfl, le_max_left _ _,
      max_le (by norm_num) (round_le_5000 hle)⟩

/-- C5 witness: a zero-distance guess is within the perfect radius and
scores exactly 5000. -/

theorem calculateScore_curve_witness :
    calculateDistance 0 0 0 0 ≤ 500 ∧ calculateScore 0 0 0 0 = 5000 := by
  have h0 : calculateDistance 0 0 0 0 ≤ 500 := by
    rw [calculateDistance_self]; norm_num
  exact ⟨h0, (calculateScore_curve 0 0 0 0).1 h0⟩

/-- C8: beyond the 500 km perfect radius the score is non-increasing in the
great-circle distance: if two coordinate pairs have distances
`500 < d₁ ≤ d₂`, the score of the farther pair is at most the score of the
nearer pair. -/

theorem calculateScore_antitone (a1 b1 c1 d1 a2 b2 c2 d2 : ℝ)
    (h1 : 500 < calculateDistance a1 b1 c1 d1)
    (h2 : calculateDistance a1 b1 c1 d1 ≤ calculateDistance a2 b2 c2 d2) :
    calculateScore a2 b2 c2 d2 ≤ calculateScore a1 b1 c1 d1 := by
  unfold calculateScore
  rw [if_neg (not_le.mpr h1), if_neg (not_le.mpr (lt_of_lt_of_le h1 h2))]
  refine max_le_max le_rfl ?_
  refine round_mono_real ?_
  have hexp : Real.exp (-(calculateDistance a2 b2 c2 d2 - 500) / 2500) ≤
      Real.exp (-(calculateDistance a1 b1 c1 d1 - 500) / 2500) :=
    Real.exp_le_exp.mpr (by linarith)
  nlinarith

/-- C8 witness: the equator-antipodal pair lies beyond 500 km, and applying
the monotonicity theorem to it (with itself as the farther pair) gives a
score comparison. -/

theorem calculateScore_antitone_witness :
    500 < calculateDistance 0 0 0 180 ∧
    calculateScore 0 0 0 180 ≤ calculateScore 0 0 0 180 := by
  have h500 : 500 < calculateDistance 0 0 0 180 := by
    rw [calculateDistance_antipodal]
    nlinarith [Real.pi_gt_three]
  exact ⟨h500, calculateScore_antitone 0 0 0 180 0 0 0 180 h500 le_rfl⟩

/-- Prepending an element that occurs at position `m` and overwriting that
position with `a` permutes to prepending `a` instead. -/

theorem cons_set_perm {α : Type*} (b : α) :
    ∀ (t : List α) (m : ℕ) (a : α), t[m]? = some b → (b :: t.set m a).Perm (a :: t) := by
  intro t
  induction t with
  | nil => intro m a h; simp at h
  | cons y s ih =>
    intro m a h
    cases m with
    | zero =>
      simp at h
      subst h
      simpa [List.set] using List.Perm.swap a y s
    | succ m =>
      simp at h
      have step : (b :: s.set m a).Perm (a :: s) := ih m a h
      have h1 : (b :: y :: s.set m a).Perm (y :: b :: s.set m a) := List.Perm.swap y b _
      have h2 : (y :: b :: s.set m a).Perm (y :: a :: s) := step.cons y
      have h3 : (y :: a :: s).Perm (a :: y :: s) := List.Perm.swap a y s
      simpa [List.set] using (h1.trans h2).trans h3

/-- Writing element `b` over position `i` and element `a` over position `j`,
when `a` and `b` were the occupants of `i` and `j`, permutes the list. -/

theorem set_set_perm {α : Type*} :
    ∀ (l : List α) (i j : ℕ) (a b : α),
      l[i]? = some a → l[j]? = some b → ((l.set i b).set j a).Perm l := by
  intro l
  induction l with
  | nil => intro i j a b hi _; simp at hi
  | cons x t ih =>
    intro i j a b hi hj
    cases i with
    | zero =>
      simp at hi
      subst hi
      cases j with
      | zero => simp at hj; subst hj; simp [List.set]
      | succ m =>
        simp at hj
        simpa [List.set] using cons_set_perm b t m x hj
    | succ m =>
      simp at hi
      cases j with
      | zero =>
        simp at hj
        subst hj
        simpa [List.set] using cons_set_perm a t m x hi
      | succ k =>
        simp at hj
        simpa [List.set] using (ih m k a b hi hj).cons x

/-- A destructuring swap permutes the list (identity when out of bounds). -/

theorem swapL_perm {α : Type*} (l : List α) (i j : ℕ) : (swapL l i j).Perm l := by
  unfold swapL
  rcases hi : l[i]? with _ | a <;> rcases hj : l[j]? with _ | b <;>
    first
      | exact List.Perm.refl l
      | exact set_set_perm l i j a b hi hj

/-- Each pass of the Fisher–Yates loop permutes its input. -/

theorem shuffleLoop_perm {α : Type*} (rnd : ℕ → ℕ → ℕ) :
    ∀ (i : ℕ) (l : List α), (shuffleLoop rnd i l).Perm l := by
  intro i
  induction i with
  | zero => intro l; exact List.Perm.refl l
  | succ k ih =>
    intro l
    exact (ih _).trans (swapL_perm l (k + 1) _)

/-- The big-endian byte accumulator stays below `256 ^ n` when every byte is
below 256. -/

theorem foldl_bytes_lt (bytes : ℕ → ℕ) (h : ∀ k, bytes k < 256) :
    ∀ n, (List.range n).foldl (fun acc i => acc * 256 + bytes i) 0 < 256 ^ n := by
  intro n
  induction n with
  | zero => simp
  | succ m ih =>
    rw [List.range_succ, List.foldl_append]
    simp only [List.foldl_cons, List.foldl_nil]
    have hb := h m
    have : (List.range m).foldl (fun acc i => acc * 256 + bytes i) 0 ≤ 256 ^ m - 1 :=
      Nat.le_sub_one_of_lt ih
    have hpow : 1 ≤ 256 ^ m := Nat.one_le_pow _ _ (by norm_num)
    calc (List.range m).foldl (fun acc i => acc * 256 + bytes i) 0 * 256 + bytes m
        ≤ (256 ^ m - 1) * 256 + 255 := by
          exact Nat.add_le_add (Nat.mul_le_mul_right _ this) (Nat.le_sub_one_of_lt hb)
      _ < 256 ^ (m + 1) := by
          rw [Nat.sub_mul, pow_succ]
          omega

/-- The scaled draw of `secureRandomInt` always lands strictly below `max`
whenever `max ≥ 1` and the byte source produces genuine bytes. -/

theorem secureRandomInt_lt (max : ℕ) (bytes : ℕ → ℕ)
    (hbytes : ∀ k, bytes k < 256) (hmax : 1 ≤ max) :
    secureRandomInt max bytes < max := by
  unfold secureRandomInt
  by_cases h1 : max ≤ 1
  · have hm : max = 1 := le_antisymm h1 hmax
    subst hm
    simp [bytesNeeded]
  · push_neg at h1
    have hv := foldl_bytes_lt bytes hbytes (bytesNeeded max)
    have hpow : 0 < 256 ^ bytesNeeded max := Nat.pos_pow_of_pos _ (by norm_num)
    rw [Nat.div_lt_iff_lt_mul hpow]
    calc (List.range (bytesNeeded max)).foldl (fun acc i => acc * 256 + bytes i) 0 * max
        < 256 ^ bytesNeeded max * max := by
          exact Nat.mul_lt_mul_of_lt_of_le hv le_rfl (by omega)
      _ = max * 256 ^ bytesNeeded max := Nat.mul_comm _ _

/-- C4: for every input sequence and every output of the random byte source,
the shuffle returns a permutation of its input — the same multiset of
elements with the length preserved — and every per-step draw
`secureRandomInt(i+1)` lands in `[0, i]`, so each Fisher–Yates step is a
valid in-range swap. -/

theorem shuffleArray_perm {α : Type*} (rnd : ℕ → ℕ → ℕ) (l : List α)
    (hbytes : ∀ i k, rnd i k < 256) :
    (shuffleArray rnd l).Perm l ∧ (shuffleArray rnd l).length = l.length ∧
    (∀ i, 1 ≤ i → secureRandomInt (i + 1) (rnd i) ≤ i) := by
  refine ⟨shuffleLoop_perm rnd _ l, (shuffleLoop_perm rnd _ l).length_eq, ?_⟩
  intro i _
  have := secureRandomInt_lt (i + 1) (rnd i) (hbytes i) (by omega)
  omega

/-- C4 witness: a concrete all-zero byte source shuffles a three-element
list to a permutation of itself with its length preserved. -/

theorem shuffleArray_perm_witness :
    (shuffleArray (fun _ _ => 0) [10, 20, 30]).Perm [10, 20, 30] ∧
    (shuffleArray (fun _ _ => 0) ([10, 20, 30] : List ℕ)).length = 3 := by
  have h := shuffleArray_perm (fun _ _ => 0) ([10, 20, 30] : List ℕ)
    (fun _ _ => by norm_num)
  exact ⟨h.1, h.2.1⟩

/-- Looking up an id immediately after overwriting it yields the new entry. -/

theorem lookup_cacheSet (cache : PhotoCache) (id : String) (v : CachedPhoto) :
    List.lookup id (cacheSet cache id v) = some v := by
  unfold cacheSet
  induction cache with
  | nil => simp [List.lookup]
  | cons p rest ih =>
    rcases p with ⟨k, w⟩
    by_cases hk : k = id
    · subst hk
      simpa [List.filter_cons] using ih
    · simp only [List.filter_cons]
      have hk2 : (k == id) = false := beq_false_of_ne hk
      have hk3 : (id == k) = false := beq_false_of_ne (Ne.symm hk)
      simp [hk2, hk3, List.lookup, ih]

/-- C7: a cache entry written at time `t` reads back with the same stored
fields; the freshness check accepts it exactly while `now − t` is strictly
below 24 hours; and once the age reaches 24 hours the check reports it
expired while the record itself is still in storage. -/

theorem cache_roundtrip (storage : Option PhotoCache) (entry : CachedPhoto) (now : ℤ) :
    List.lookup entry.balloonId
        (loadCache (saveCache (cacheSet (loadCache storage) entry.balloonId entry))) =
      some entry ∧
    (isCacheValid now entry = true ↔ now - entry.timestamp < 24 * 60 * 60 * 1000) ∧
    (24 * 60 * 60 * 1000 ≤ now - entry.timestamp →
      isCacheValid now entry = false ∧
      List.lookup entry.balloonId
          (loadCache (saveCache (cacheSet (loadCache storage) entry.balloonId entry))) =
        some entry) := by
  refine ⟨lookup_cacheSet _ _ _, ?_, ?_⟩
  · simp [isCacheValid, CACHE_DURATION]
  · intro h
    refine ⟨?_, lookup_cacheSet _ _ _⟩
    simp only [isCacheValid, CACHE_DURATION]
    simpa using not_lt.mpr (by linarith)

/-- A successful photo resolution copies the requested coordinates into the
result and reports distance 0, on the cache-hit path and the fresh-fetch
path alike. -/

theorem getPhotoForLocation_some (now : ℤ) (geocode : ℚ → ℚ → Option String)
    (unsplash : String → Option (String × String)) (st : Option PhotoCache)
    (id : String) (lat lon : ℚ) (p : PhotoResult) (st2 : Option PhotoCache)
    (h : getPhotoForLocation now geocode unsplash st id lat lon = (some p, st2)) :
    p.lat = lat ∧ p.lon = lon ∧ p.distance = 0 := by
  have fetchCase : ∀ (hmiss : (match List.lookup id (loadCache st) with
      | some cached => if isCacheValid now cached then some cached else none
      | none => none) = (none : Option CachedPhoto)),
      p.lat = lat ∧ p.lon = lon ∧ p.distance = 0 := by
    intro hmiss
    simp only [getPhotoForLocation, hmiss] at h
    rcases hg : geocode lat lon with _ | loc
    · simp only [hg] at h
      simp at h
    · simp only [hg] at h
      rcases hu : unsplash loc with _ | ⟨url, attr⟩
      · simp only [hu] at h
        simp at h
      · simp only [hu] at h
        simp only [Prod.mk.injEq, Option.some.injEq] at h
        obtain ⟨h1, -⟩ := h
        subst h1
        exact ⟨rfl, rfl, rfl⟩
  rcases hlk : List.lookup id (loadCache st) with _ | cached
  · exact fetchCase (by rw [hlk])
  · by_cases hv : isCacheValid now cached = true
    · simp only [getPhotoForLocation] at h
      rw [hlk] at h
      simp only [hv, if_true] at h
      simp only [Prod.mk.injEq, Option.some.injEq] at h
      obtain ⟨h1, -⟩ := h
      subst h1
      exact ⟨rfl, rfl, rfl⟩
    · refine fetchCase ?_
      rw [hlk]
      simp [hv]

/-- Once `numRounds` rounds are collected, the loop consumes nothing more. -/

theorem collectRounds_stop (now : ℤ) (geocode : ℚ → ℚ → Option String)
    (unsplash : String → Option (String × String)) (n : ℕ)
    (sel : List BalloonData) (acc : List GameRound) (st : Option PhotoCache)
    (h : n ≤ acc.length) :
    collectRounds now geocode unsplash n sel (acc, st) = (acc, st) := by
  cases sel with
  | nil => rfl
  | cons b rest =>
    simp only [collectRounds]
    rw [if_neg (not_lt.mpr h)]

/-- The loop never collects more than `numRounds` rounds. -/

theorem collectRounds_length_le (now : ℤ) (geocode : ℚ → ℚ → Option String)
    (unsplash : String → Option (String × String)) (n : ℕ) :
    ∀ (sel : List BalloonData) (acc : List GameRound) (st : Option PhotoCache),
      acc.length ≤ n →
      (collectRounds now geocode unsplash n sel (acc, st)).1.length ≤ n := by
  intro sel
  induction sel with
  | nil => intro acc st h; exact h
  | cons b rest ih =>
    intro acc st h
    simp only [collectRounds]
    by_cases hlt : acc.length < n
    · rw [if_pos hlt]
      split
      · refine ih _ _ ?_
        simp only [List.length_append, List.length_singleton]
        omega
      · exact ih _ _ h
    · rw [if_neg hlt]
      exact h

/-- Every round the loop adds to its accumulator has `distanceKm = 0` and
photo coordinates equal to the balloon coordinates. -/

theorem collectRounds_mem (now : ℤ) (geocode : ℚ → ℚ → Option String)
    (unsplash : String → Option (String × String)) (n : ℕ) :
    ∀ (sel : List BalloonData) (acc : List GameRound) (st : Option PhotoCache)
      (r : GameRound), r ∈ (collectRounds now geocode unsplash n sel (acc, st)).1 →
      r ∈ acc ∨ (r.distanceKm = 0 ∧ r.photoLat = r.balloonLat ∧ r.photoLon = r.balloonLon) := by
  intro sel
  induction sel with
  | nil => intro acc st r h; exact Or.inl h
  | cons b rest ih =>
    intro acc st r h
    simp only [collectRounds] at h
    by_cases hlt : acc.length < n
    · rw [if_pos hlt] at h
      split at h
      · rename_i photo st2 heq
        rcases ih _ _ r h with hin | hgood
        · rcases List.mem_append.mp hin with h1 | h2
          · exact Or.inl h1
          · right
            have hr : r = mkRound b photo := List.mem_singleton.mp h2
            obtain ⟨hl, ho, hd⟩ := getPhotoForLocation_some now geocode unsplash st
              b.id b.lat b.lon photo st2 heq
            subst hr
            refine ⟨?_, ?_, ?_⟩
            · show round photo.distance = 0
              rw [hd]
              exact round_zero
            · show photo.lat = b.lat
              exact hl
            · show photo.lon = b.lon
              exact ho
        · exact Or.inr hgood
      · exact ih _ _ r h
    · rw [if_neg hlt] at h
      exact Or.inl h

/-- With no cache file and a resolver that always misses, the loop collects
nothing and leaves the state untouched. -/

theorem collectRounds_all_miss (now : ℤ) (geocode : ℚ → ℚ → Option String)
    (unsplash : String → Option (String × String)) (n : ℕ)
    (hgeo : ∀ la lo, geocode la lo = none) :
    ∀ (sel : List BalloonData) (acc : List GameRound),
      collectRounds now geocode unsplash n sel (acc, none) = (acc, none) := by
  intro sel
  induction sel with
  | nil => intro acc; rfl
  | cons b rest ih =>
    intro acc
    have hmiss : getPhotoForLocation now geocode unsplash none b.id b.lat b.lon = (none, none) := by
      unfold getPhotoForLocation
      simp [loadCache, List.lookup, hgeo]
    simp only [collectRounds]
    by_cases hlt : acc.length < n
    · rw [if_pos hlt, hmiss]
      exact ih acc
    · rw [if_neg hlt]

/-- C3: round assembly fails with the fatal "no data" error exactly when the
feed yielded zero observations; on a non-empty feed it fails with the
distinct "no viable rounds" error exactly when zero rounds survive the
over-sample — in particular whenever there is no cache file and the
resolver always misses; and every successful return carries between 1 and
`count` rounds, the loop stopping as soon as `count` rounds are collected. -/

theorem createGameRound_spec (n : ℕ) (rnd : ℕ → ℕ → ℕ) (now : ℤ)
    (geocode : ℚ → ℚ → Option String) (unsplash : String → Option (String × String))
    (balloons : List BalloonData) (storage : Option PhotoCache) :
    (createGameRound n rnd now geocode unsplash balloons storage =
        Except.error GameError.noData ↔ balloons = []) ∧
    (balloons ≠ [] →
      (createGameRound n rnd now geocode unsplash balloons storage =
          Except.error GameError.noViableRounds ↔
        (collectRounds now geocode unsplash n
          ((shuffleArray rnd balloons).take (min (n * 3) (shuffleArray rnd balloons).length))
          ([], storage)).1 = [])) ∧
    (balloons ≠ [] → (∀ la lo, geocode la lo = none) → storage = none →
      createGameRound n rnd now geocode unsplash balloons storage =
        Except.error GameError.noViableRounds) ∧
    (∀ rs, createGameRound n rnd now geocode unsplash balloons storage = Except.ok rs →
      1 ≤ rs.length ∧ rs.length ≤ n) ∧
    (∀ (sel : List BalloonData) (acc : List GameRound) (st : Option PhotoCache),
      n ≤ acc.length → collectRounds now geocode unsplash n sel (acc, st) = (acc, st)) := by
  refine ⟨⟨?_, ?_⟩, ?_, ?_, ?_, ?_⟩
  · intro h
    by_contra hne
    have hlen : ¬ balloons.length = 0 := fun h0 => hne (List.length_eq_zero.mp h0)
    simp only [createGameRound] at h
    rw [if_neg hlen] at h
    split at h
    · exact absurd h (by decide)
    · exact Except.noConfusion h
  · intro h
    subst h
    rfl
  · intro hne
    have hlen : ¬ balloons.length = 0 := fun h0 => hne (List.length_eq_zero.mp h0)
    simp only [createGameRound]
    rw [if_neg hlen]
    constructor
    · intro h
      split at h
      · rename_i hz
        exact List.length_eq_zero.mp hz
      · exact Except.noConfusion h
    · intro h
      have hz : (collectRounds now geocode unsplash n
          ((shuffleArray rnd balloons).take (min (n * 3) (shuffleArray rnd balloons).length))
          ([], storage)).1.length = 0 := by
        rw [h]
        rfl
      rw [if_pos hz]
  · intro hne hgeo hst
    subst hst
    have hlen : ¬ balloons.length = 0 := fun h0 => hne (List.length_eq_zero.mp h0)
    simp only [createGameRound]
    rw [if_neg hlen, collectRounds_all_miss now geocode unsplash n hgeo]
    rfl
  · intro rs h
    simp only [createGameRound] at h
    split at h
    · exact Except.noConfusion h
    · split at h
      · exact Except.noConfusion h
      · rename_i hz
        have hrs := Except.ok.inj h
        rw [← hrs]
        constructor
        · omega
        · exact collectRounds_length_le now geocode unsplash n _ [] storage (by simp)
  · intro sel acc st hn
    exact collectRounds_stop now geocode unsplash n sel acc st hn

/-- C3 witness: with one balloon, an always-missing resolver and no cache
file, assembly fails with the "no viable rounds" error; with an empty feed
it fails with the "no data" error; and with an always-succeeding resolver
asking for one round from one balloon it returns exactly one round. -/

theorem createGameRound_spec_witness :
    createGameRound 1 (fun _ _ => 0) 0 (fun _ _ => none) (fun _ => none)
      [⟨"0", 45, -122, none⟩] none = Except.error GameError.noViableRounds ∧
    createGameRound 1 (fun _ _ => 0) 0 (fun _ _ => none) (fun _ => none)
      [] none = Except.error GameError.noData ∧
    1 ≤ ([(⟨45, -122, "0", "url", "attr", "Loc", 45, -122, 0⟩ : GameRound)]).length ∧
    ([(⟨45, -122, "0", "url", "attr", "Loc", 45, -122, 0⟩ : GameRound)]).length ≤ 1 := by
  refine ⟨?_, ?_, ?_⟩
  · exact (createGameRound_spec 1 (fun _ _ => 0) 0 (fun _ _ => none) (fun _ => none)
      [⟨"0", 45, -122, none⟩] none).2.2.1 (by decide) (fun _ _ => rfl) rfl
  · exact (createGameRound_spec 1 (fun _ _ => 0) 0 (fun _ _ => none) (fun _ => none)
      [] none).1.mpr rfl
  · exact (createGameRound_spec 1 (fun _ _ => 0) 0 (fun _ _ => some "Loc")
      (fun _ => some ("url", "attr")) [⟨"0", 45, -122, none⟩] none).2.2.2.1
      [⟨45, -122, "0", "url", "attr", "Loc", 45, -122, 0⟩] (by with_unfolding_all decide)

/-- C6: every round a successful assembly returns has `distanceKm = 0`,
whether it was synthesized from a cache hit or from a fresh
resolve-and-fetch. -/

theorem createGameRound_distanceKm_zero (n : ℕ) (rnd : ℕ → ℕ → ℕ) (now : ℤ)
    (geocode : ℚ → ℚ → Option String) (unsplash : String → Option (String × String))
    (balloons : List BalloonData) (storage : Option PhotoCache) (rs : List GameRound)
    (h : createGameRound n rnd now geocode unsplash balloons storage = Except.ok rs) :
    ∀ r ∈ rs, r.distanceKm = 0 := by
  intro r hr
  simp only [createGameRound] at h
  split at h
  · exact Except.noConfusion h
  · split at h
    · exact Except.noConfusion h
    · have hrs := (Except.ok.inj h).symm
      rw [hrs] at hr
      rcases collectRounds_mem now geocode unsplash n _ [] storage r hr with hin | hgood
      · exact absurd hin (List.not_mem_nil r)
      · exact hgood.1

/-- C6 witness: a concrete successful assembly whose single round has
`distanceKm = 0`. -/

theorem createGameRound_distanceKm_zero_witness :
    createGameRound 1 (fun _ _ => 0) 0 (fun _ _ => some "Loc")
      (fun _ => some ("url", "attr")) [⟨"0", 45, -122, none⟩] none =
      Except.ok [⟨45, -122, "0", "url", "attr", "Loc", 45, -122, 0⟩] ∧
    (⟨45, -122, "0", "url", "attr", "Loc", 45, -122, 0⟩ : GameRound).distanceKm = 0 := by
  have hok : createGameRound 1 (fun _ _ => 0) 0 (fun _ _ => some "Loc")
      (fun _ => some ("url", "attr")) [⟨"0", 45, -122, none⟩] none =
      Except.ok [⟨45, -122, "0", "url", "attr", "Loc", 45, -122, 0⟩] := by
    with_unfolding_all decide
  refine ⟨hok, ?_⟩
  exact createGameRound_distanceKm_zero 1 (fun _ _ => 0) 0 (fun _ _ => some "Loc")
    (fun _ => some ("url", "attr")) [⟨"0", 45, -122, none⟩] none
    [⟨45, -122, "0", "url", "attr", "Loc", 45, -122, 0⟩] hok
    ⟨45, -122, "0", "url", "attr", "Loc", 45, -122, 0⟩ (List.mem_singleton.mpr rfl)

/-- C9: in every round a successful assembly returns, the photo coordinates
are exactly the balloon coordinates — the photo is always resolved for the
balloon position itself, never an independently sourced location. -/

theorem createGameRound_photo_coords (n : ℕ) (rnd : ℕ → ℕ → ℕ) (now : ℤ)
    (geocode : ℚ → ℚ → Option String) (unsplash : String → Option (String × String))
    (balloons : List BalloonData) (storage : Option PhotoCache) (rs : List GameRound)
    (h : createGameRound n rnd now geocode unsplash balloons storage = Except.ok rs) :
    ∀ r ∈ rs, r.photoLat = r.balloonLat ∧ r.photoLon = r.balloonLon := by
  intro r hr
  simp only [createGameRound] at h
  split at h
  · exact Except.noConfusion h
  · split at h
    · exact Except.noConfusion h
    · have hrs := (Except.ok.inj h).symm
      rw [hrs] at hr
      rcases collectRounds_mem now geocode unsplash n _ [] storage r hr with hin | hgood
      · exact absurd hin (List.not_mem_nil r)
      · exact hgood.2

/-- C9 witness: the same concrete successful assembly, whose single round
has photo coordinates equal to the balloon coordinates. -/

theorem createGameRound_photo_coords_witness :
    createGameRound 1 (fun _ _ => 1) 7 (fun _ _ => some "Spot")
      (fun _ => some ("u2", "a2")) [⟨"3", 10, 20, none⟩] none =
      Except.ok [⟨10, 20, "3", "u2", "a2", "Spot", 10, 20, 0⟩] ∧
    (⟨10, 20, "3", "u2", "a2", "Spot", 10, 20, 0⟩ : GameRound).photoLat =
      (⟨10, 20, "3", "u2", "a2", "Spot", 10, 20, 0⟩ : GameRound).balloonLat ∧
    (⟨10, 20, "3", "u2", "a2", "Spot", 10, 20, 0⟩ : GameRound).photoLon =
      (⟨10, 20, "3", "u2", "a2", "Spot", 10, 20, 0⟩ : GameRound).balloonLon := by
  have hok : createGameRound 1 (fun _ _ => 1) 7 (fun _ _ => some "Spot")
      (fun _ => some ("u2", "a2")) [⟨"3", 10, 20, none⟩] none =
      Except.ok [⟨10, 20, "3", "u2", "a2", "Spot", 10, 20, 0⟩] := by
    with_unfolding_all decide
  have hco := createGameRound_photo_coords 1 (fun _ _ => 1) 7 (fun _ _ => some "Spot")
    (fun _ => some ("u2", "a2")) [⟨"3", 10, 20, none⟩] none
    [⟨10, 20, "3", "u2", "a2", "Spot", 10, 20, 0⟩] hok
    ⟨10, 20, "3", "u2", "a2", "Spot", 10, 20, 0⟩ (List.mem_singleton.mpr rfl)
  exact ⟨hok, hco⟩

/-- C10: the guess-submission handler responds 400 "Missing required
coordinates" whenever any of the four coordinates is absent or equal to 0 —
so a position exactly on the equator or the prime meridian is rejected
rather than scored. -/

theorem guessHandler_rejects (aLat aLon gLat gLon : Option ℚ)
    (h : aLat = none ∨ aLat = some 0 ∨ aLon = none ∨ aLon = some 0 ∨
         gLat = none ∨ gLat = some 0 ∨ gLon = none ∨ gLon = some 0) :
    guessHandler aLat aLon gLat gLon =
      GuessResponse.badRequest "Missing required coordinates" := by
  unfold guessHandler
  rcases h with h | h | h | h | h | h | h | h <;> subst h <;> simp [truthy]

/-- C10 witness: an actual position on the equator (latitude 0) is rejected
with the 400 error instead of being scored. -/

theorem guessHandler_rejects_witness :
    guessHandler (some 0) (some 45) (some 10) (some 20) =
      GuessResponse.badRequest "Missing required coordinates" :=
  guessHandler_rejects (some 0) (some 45) (some 10) (some 20) (Or.inr (Or.inl rfl))

/-- C7 witness: a concrete entry written at epoch 0 and read exactly 24
hours later is reported expired yet still present in storage. -/

theorem cache_roundtrip_witness :
    isCacheValid 86400000 sampleEntry = false ∧
    List.lookup sampleEntry.balloonId
        (loadCache (saveCache (cacheSet (loadCache none) sampleEntry.balloonId sampleEntry))) =
      some sampleEntry := by
  exact (cache_roundtrip none sampleEntry 86400000).2.2 (by decide)
